import Mathlib

/-
Verification of the streaming drift-analysis session engine
(`src/context/DriftAssistProvider.tsx` and
`src/components/DriftAssist/S3StreamingAnalysis.tsx`).

Modelling conventions:
* JavaScript objects with possibly-absent fields become structures whose
  fields are `Option`-valued; `none` models an absent / `undefined` / `null`
  field (all of which are falsy and compare `!== some value`).
* `Record<string, T>` objects become functions `String → Option T`; the JS
  spread update `{...m, [k]: v}` becomes a pointwise `if`.
* Opaque JSON payloads (drift entries, narrative reports) are wrapped in
  one-field structures; the engine never inspects their contents.
* Strings flowing through the byte-stream decoder are modelled as `List Char`
  so that splitting on a line break is structural recursion.
-/

namespace DriftAssist

/-- An entry of a `drifts` array inside a drift-detection result.  The engine
treats entries as opaque; only their count is ever observed. -/
structure DriftEntry where
  val : Nat
deriving DecidableEq

/-- Shape of a `drift_result` / `detectionResults` JSON value, restricted to
the three fields the engine reads: `drift_count`, `drifts`, `has_drift`. -/
structure DriftResult where
  drift_count : Option Nat
  drifts : Option (List DriftEntry)
  has_drift : Option Bool
deriving DecidableEq

/-- An opaque narrative report payload (`report` / `reportResults`). -/
structure Report where
  val : Nat
deriving DecidableEq

/-- Per-resource progress record (`ResourceResult` in the provider).  Every
field is optional: the code creates partial objects by spreading `undefined`
(e.g. `detection_complete` for an untracked resource yields an object carrying
only `detectionStatus` and `detectionResults`). -/
structure ResourceResult where
  status : Option String
  detectionStatus : Option String
  reportStatus : Option String
  detectionResults : Option DriftResult
  reportResults : Option Report
deriving DecidableEq

/-- The `analysisResults` aggregate (`AnalysisState` in the provider),
restricted to the fields the reducer writes. -/
structure AnalysisState where
  status : Option String
  session_dir : Option String
  resources : Option (List String)
deriving DecidableEq

/-- The request data (`AnalysisData`); opaque payload fields that the
modelled logic never reads (`stateData`, `terraformAnalysis`,
`configurationSummary`) are elided. -/
structure AnalysisData where
  sessionId : String
  selectedResources : List String
  fileName : String
  fileKey : String
  source : String
  bucketName : String
deriving DecidableEq

/-- One `AnalysisSession` aggregate.  The `reader` / `abortController`
handles live outside the session store (in the `activeStreams` ref) and are
not part of the stored state. -/
structure AnalysisSession where
  id : String
  analysisData : AnalysisData
  analysisResults : AnalysisState
  resourceResults : String → Option ResourceResult
  isAnalyzing : Bool
  analysisComplete : Bool
  hasStarted : Bool
  error : Option String
  timestamp : Nat

/-- One entry of a `resource_group_update` batch
(`data.data.resources[resourceType]`). -/
structure ResourceData where
  status : Option String
  drift_result : Option DriftResult
  report : Option Report
deriving DecidableEq

/-- Decoded streaming events, one constructor per recognized `data.type`;
`unknown` stands for every unrecognized tag (the reducer's `default` arm).
For `resource_group_update`, `none` models a payload where `data.data` or
`data.data.resources` is absent/falsy (the guard on line 131). -/
inductive StreamEvent where
  | session_initialized (session_dir : Option String)
  | analysis_started (resources : Option (List String))
  | resource_initialized (resource : String) (detectionStatus reportStatus : Option String)
  | resource_group_update (resources : Option (List (String × ResourceData)))
  | detection_complete (resource : String) (results : Option DriftResult)
  | report_complete (resource : String) (results : Option Report)
  | analysis_complete
  | error (err : Option String)
  | unknown
deriving DecidableEq

/-- The session store: `Record<string, AnalysisSession>`. -/
abbrev SessionStore := String → Option AnalysisSession

/-- JS `x || d` on an optional string: `undefined` and the empty string are
falsy, every other string is kept. -/
def jsOr (o : Option String) (d : String) : String :=
  match o with
  | some s => if s = "" then d else s
  | none => d

/-- The body of the reducer `handleStreamingUpdate` acting on one session
(the `switch` on `data.type`, lines 102-203 of the provider). -/
def applyEvent (session : AnalysisSession) (ev : StreamEvent) : AnalysisSession :=
  match ev with
  | .session_initialized dir =>
    { session with analysisResults :=
        { session.analysisResults with status := some "session_initialized", session_dir := dir } }
  | .analysis_started rs =>
    { session with analysisResults :=
        { session.analysisResults with status := some "started", resources := rs } }
  | .resource_initialized r ds rs =>
    let resourceResults' := fun k =>
      if k = r then
        some ({ status := some "initialized",
                detectionStatus := some (jsOr ds "pending"),
                reportStatus := some (jsOr rs "pending"),
                detectionResults := none,
                reportResults := none } : ResourceResult)
      else session.resourceResults k
    { session with resourceResults := resourceResults' }
  | .resource_group_update batch =>
    match batch with
    | none => session
    | some entries =>
      let analysisResults' := { session.analysisResults with
        resources := some (session.analysisResults.resources.getD (entries.map Prod.fst)) }
      let resourceResults' := entries.foldl (fun acc p =>
        let rd := p.2
        let hasDetectionResults := match rd.drift_result with
          | some dres => dres.drifts.isSome || dres.has_drift.isSome
          | none => false
        let hasReport := rd.report.isSome
        let isCompleted := rd.status == some "completed"
        let detectionStatus := if isCompleted || hasDetectionResults then "complete" else "pending"
        let reportStatus := if isCompleted || hasReport then "complete" else "pending"
        fun k =>
          if k = p.1 then
            some ({ status := some (jsOr rd.status "processing"),
                    detectionStatus := some detectionStatus,
                    reportStatus := some reportStatus,
                    detectionResults := rd.drift_result,
                    reportResults := rd.report } : ResourceResult)
          else acc k) session.resourceResults
      { session with analysisResults := analysisResults', resourceResults := resourceResults' }
  | .detection_complete r results =>
    let resourceResults' := fun k =>
      if k = r then
        some (match session.resourceResults r with
          | some prev => { prev with detectionStatus := some "complete", detectionResults := results }
          | none => { status := none,
                      detectionStatus := some "complete",
                      reportStatus := none,
                      detectionResults := results,
                      reportResults := none })
      else session.resourceResults k
    { session with resourceResults := resourceResults' }
  | .report_complete r results =>
    let resourceResults' := fun k =>
      if k = r then
        some (match session.resourceResults r with
          | some prev => { prev with reportStatus := some "complete", reportResults := results }
          | none => { status := none,
                      detectionStatus := none,
                      reportStatus := some "complete",
                      detectionResults := none,
                      reportResults := results })
      else session.resourceResults k
    { session with resourceResults := resourceResults' }
  | .analysis_complete =>
    { session with analysisComplete := true, isAnalyzing := false }
  | .error e =>
    { session with error := e, isAnalyzing := false }
  | .unknown => session

/-- `handleStreamingUpdate(sessionId, data)`: the `setSessions` updater of
lines 96-209.  A missing session returns the store unchanged (line 98);
otherwise the updated session copy is written back under the same key. -/
def handleStreamingUpdate (sessionId : String) (data : StreamEvent)
    (store : SessionStore) : SessionStore :=
  match store sessionId with
  | none => store
  | some session =>
    let updatedSession := applyEvent session data
    fun k => if k = sessionId then some updatedSession else store k

/-- The object produced by `{...prev[sessionId], isAnalyzing: false}` when
`prev[sessionId]` is `undefined`: spreading `undefined` contributes nothing,
so only `isAnalyzing` is present; every absent field is modelled by its
falsy/empty reading. -/
def undefinedSpreadSession : AnalysisSession where
  id := ""
  analysisData := { sessionId := "", selectedResources := [], fileName := "",
                    fileKey := "", source := "", bucketName := "" }
  analysisResults := { status := none, session_dir := none, resources := none }
  resourceResults := fun _ => none
  isAnalyzing := false
  analysisComplete := false
  hasStarted := false
  error := none
  timestamp := 0

/-- The `setSessions` updater of `stopAnalysis` (lines 370-376): marks the
session non-analyzing without removing it from the store.  The cancellation
of the reader / abort controller affects only the `activeStreams` ref, not
the stored session state. -/
def stopAnalysisSessions (sessionId : String) (store : SessionStore) : SessionStore :=
  fun k =>
    if k = sessionId then
      some (match store sessionId with
        | some s => { s with isAnalyzing := false }
        | none => undefinedSpreadSession)
    else store k

/-- `generateSessionId` (lines 88-90): fileName, backend session id and the
current time joined by underscores. -/
def generateSessionId (analysisData : AnalysisData) (now : Nat) : String :=
  analysisData.fileName ++ "_" ++ analysisData.sessionId ++ "_" ++ toString now

/-- The fresh `AnalysisSession` record built by `startAnalysis`
(lines 219-229). -/
def newSession (analysisData : AnalysisData) (sessionId : String) (now : Nat) :
    AnalysisSession where
  id := sessionId
  analysisData := analysisData
  analysisResults := { status := none, session_dir := none, resources := none }
  resourceResults := fun _ => none
  isAnalyzing := true
  analysisComplete := false
  hasStarted := true
  error := none
  timestamp := now

/-- The synchronous session-allocation step of the provider's
`startAnalysis` (lines 215-237): derive the id and unconditionally write a
fresh session under it.  `Date.now()` is sampled twice in the source (once
inside `generateSessionId`, once for `timestamp`), hence two time
parameters. -/
def startAnalysisSessions (analysisData : AnalysisData) (nowId nowTs : Nat)
    (store : SessionStore) : SessionStore :=
  let sessionId := generateSessionId analysisData nowId
  fun k => if k = sessionId then some (newSession analysisData sessionId nowTs) else store k

/-- `getDriftCount` from `S3StreamingAnalysis.tsx` (lines 390-403): zero when
there is no resource record or no `detectionResults`; otherwise the explicit
`drift_count` field takes precedence (checked first, `!== undefined`), then
the length of the `drifts` array, else zero. -/
def getDriftCount (results : Option ResourceResult) : Nat :=
  match results with
  | none => 0
  | some r =>
    match r.detectionResults with
    | none => 0
    | some detectionData =>
      match detectionData.drift_count with
      | some n => n
      | none =>
        match detectionData.drifts with
        | some ds => ds.length
        | none => 0

/-- Modelled from the spec: the drift-count projection as the spec words it
("counts entries in a `drifts` list if present, else an explicit
`drift_count` field, else zero") - the `drifts` list takes precedence.
Stated only to be compared with `getDriftCount`, the definition translated
from the source. -/
def specDriftCount (results : Option ResourceResult) : Nat :=
  match results with
  | none => 0
  | some r =>
    match r.detectionResults with
    | none => 0
    | some detectionData =>
      match detectionData.drifts with
      | some ds => ds.length
      | none =>
        match detectionData.drift_count with
        | some n => n
        | none => 0

/-- The error body the initiating POST may return, restricted to the two
fields the code reads (`details`, `error`). -/
structure ErrorBody where
  details : Option String
  err : Option String
deriving DecidableEq

/-- Outcome of the response check in the component's `startAnalysis`:
either the session is put in the failed state with a message (`failed`), or
the code goes on to open and read the event stream (`proceed`). -/
inductive StartResult where
  | failed (msg : String)
  | proceed
deriving DecidableEq

/-- `response.ok` of the Fetch API: status in the 2xx range. -/
def respOk (status : Nat) : Bool :=
  200 ≤ status && status < 300

/-- The response classification of `S3StreamingAnalysis.startAnalysis`
(lines 197-219): on a non-ok response, parse the error body (a parse
failure yields a synthetic body carrying the HTTP status line), then map
status 423, 401 and 403 to fixed messages and every other non-2xx status to
`details || error || "Analysis failed with status N"`; both the mapped
returns and the thrown error end with the error state set and no stream
opened. -/
def classifyResponse (status : Nat) (statusText : String)
    (body : Option ErrorBody) : StartResult :=
  if respOk status then .proceed
  else
    let errorData : ErrorBody := body.getD
      { details := none, err := some ("HTTP " ++ toString status ++ ": " ++ statusText) }
    if status = 423 then
      .failed "Analysis already in progress for this file. Please wait for it to complete."
    else if status = 401 then
      .failed "Authentication failed. Your session may have expired. Please reconnect to your cloud environment."
    else if status = 403 then
      .failed "Access forbidden. Please check your permissions and try again."
    else
      .failed (jsOr errorData.details
        (jsOr errorData.err ("Analysis failed with status " ++ toString status)))

/-- The six-character line marker `"data: "` as a character list. -/
def dataTag : List Char := "data: ".toList

/-- `chunk.split('\n')`: split a character sequence at every line break;
like the JS `String.split`, it yields one (possibly empty) piece more than
the number of separators, so a chunk not ending in a line break ends in a
non-empty final piece. -/
def splitNL : List Char → List (List Char)
  | [] => [[]]
  | c :: cs =>
    if c = '\n' then [] :: splitNL cs
    else
      match splitNL cs with
      | [] => [[c]]
      | l :: ls => (c :: l) :: ls

/-- One pass of the `for (const line of lines)` body (lines 298-307 of the
provider, identically lines 239-248 of the component): a line is an event
iff it starts with `"data: "` and its remainder parses; a parse failure is
logged and dropped.  The JSON parser itself is external (`JSON.parse`), so
it is a parameter. -/
def lineRecord (parse : List Char → Option α) (line : List Char) : Option α :=
  if dataTag.isPrefixOf line then parse (line.drop 6) else none

/-- Decoding of one chunk: split on line breaks, keep the records of the
`"data: "`-prefixed lines that parse. -/
def processChunk (parse : List Char → Option α) (chunk : List Char) : List α :=
  (splitNL chunk).filterMap (lineRecord parse)

/-- The `readStream` loop: each received chunk is decoded independently
(`decoder.decode(value)` followed by `chunk.split('\n')`), the resulting
records concatenated in arrival order.  No text is carried over from one
chunk to the next. -/
def decodeChunks (parse : List Char → Option α) (chunks : List (List Char)) : List α :=
  (chunks.map (processChunk parse)).flatten

/-- Reference decoding of the whole concatenated stream as a single chunk:
split on line breaks once and parse each `"data: "`-prefixed line. -/
def decodeWhole (parse : List Char → Option α) (s : List Char) : List α :=
  processChunk parse s

/-- Proof-side view of a chunk: the list of its complete (line-break
terminated) lines and the trailing partial line. -/
def linesAcc : List Char → List (List Char) × List Char
  | [] => ([], [])
  | c :: cs =>
    if c = '\n' then ([] :: (linesAcc cs).1, (linesAcc cs).2)
    else
      match linesAcc cs with
      | ([], r) => ([], c :: r)
      | (l :: ls, r) => ((c :: l) :: ls, r)

/-- Projection: the stored `detectionStatus` of resource `r` of session
`sid`, when both exist. -/
def getDetStatus (store : SessionStore) (sid r : String) : Option String :=
  match store sid with
  | some s =>
    match s.resourceResults r with
    | some e => e.detectionStatus
    | none => none
  | none => none

/-- Projection: the stored `reportStatus` of resource `r` of session
`sid`. -/
def getRepStatus (store : SessionStore) (sid r : String) : Option String :=
  match store sid with
  | some s =>
    match s.resourceResults r with
    | some e => e.reportStatus
    | none => none
  | none => none

/-- Projection: the stored `detectionResults` of resource `r` of session
`sid`. -/
def getDetResults (store : SessionStore) (sid r : String) : Option DriftResult :=
  match store sid with
  | some s =>
    match s.resourceResults r with
    | some e => e.detectionResults
    | none => none
  | none => none

/-- The event kinds whose reducer arm never rewrites an existing resource
entry wholesale: every arm except `resource_initialized` (which installs a
fresh pending record) and `resource_group_update` (which overwrites each
batched resource from the payload alone). -/
def preservesCompletion : StreamEvent → Bool
  | .resource_initialized _ _ _ => false
  | .resource_group_update _ => false
  | _ => true

/-- Lookup form of the reducer when the session exists: the store is updated
pointwise at the session id. -/
theorem handleStreamingUpdate_of_some (sid : String) (ev : StreamEvent)
    (store : SessionStore) (s : AnalysisSession) (hs : store sid = some s) :
    handleStreamingUpdate sid ev store =
      fun k => if k = sid then some (applyEvent s ev) else store k := by
  unfold handleStreamingUpdate
  rw [hs]

/-- Lookup form of `stopAnalysis`'s store update when the session exists. -/
theorem stopAnalysisSessions_of_some (sid : String) (store : SessionStore)
    (s : AnalysisSession) (hs : store sid = some s) :
    stopAnalysisSessions sid store =
      fun k => if k = sid then some { s with isAnalyzing := false } else store k := by
  funext k
  simp [stopAnalysisSessions, hs]

/-- Applying the same `detection_complete` arm twice to one session yields
the session obtained by applying it once. -/
theorem applyEvent_detection_complete_idem (s : AnalysisSession) (r : String)
    (results : Option DriftResult) :
    applyEvent (applyEvent s (.detection_complete r results)) (.detection_complete r results) =
      applyEvent s (.detection_complete r results) := by
  obtain ⟨i, ad, ar, rr, ia, ac, hst, er, ts⟩ := s
  simp only [applyEvent, AnalysisSession.mk.injEq, and_true, true_and]
  funext k
  by_cases hk : k = r
  · subst hk
    simp only [if_pos rfl]
    cases rr k <;> rfl
  · simp only [if_neg hk]

/-- C5: replay idempotence of the reducer for `detection_complete` - feeding
the same event with the same payload twice leaves the session store exactly
as after feeding it once. -/
theorem c5_detection_complete_idempotent (store : SessionStore) (sid r : String)
    (results : Option DriftResult) :
    handleStreamingUpdate sid (.detection_complete r results)
        (handleStreamingUpdate sid (.detection_complete r results) store) =
      handleStreamingUpdate sid (.detection_complete r results) store := by
  cases hs : store sid with
  | none =>
    have h1 : handleStreamingUpdate sid (.detection_complete r results) store = store := by
      unfold handleStreamingUpdate
      rw [hs]
    rw [h1, h1]
  | some s =>
    have h1 := handleStreamingUpdate_of_some sid (.detection_complete r results) store s hs
    have h2 : (handleStreamingUpdate sid (.detection_complete r results) store) sid =
        some (applyEvent s (.detection_complete r results)) := by
      rw [h1]
      simp
    rw [handleStreamingUpdate_of_some sid (.detection_complete r results) _ _ h2,
        applyEvent_detection_complete_idem, h1]
    funext k
    by_cases hk : k = sid <;> simp [hk]

/-- C8: a `detection_complete` event for a resource that was never announced
by `resource_initialized` creates the resource record (status and
reportStatus absent, `detectionStatus` complete, the payload stored as the
detection result) instead of erroring or being dropped. -/
theorem c8_detection_complete_creates (store : SessionStore) (sid r : String)
    (s : AnalysisSession) (results : Option DriftResult)
    (hs : store sid = some s) (hr : s.resourceResults r = none) :
    ((handleStreamingUpdate sid (.detection_complete r results) store) sid).bind
        (fun s2 => s2.resourceResults r) =
      some { status := none, detectionStatus := some "complete", reportStatus := none,
             detectionResults := results, reportResults := none } := by
  rw [handleStreamingUpdate_of_some sid _ store s hs]
  simp [applyEvent, hr]

/-- C9: an event whose session id is absent from the store is a complete
no-op - the reducer returns the previous store object unchanged. -/
theorem c9_unknown_session_noop (store : SessionStore) (sid : String)
    (ev : StreamEvent) (h : store sid = none) :
    handleStreamingUpdate sid ev store = store := by
  unfold handleStreamingUpdate
  rw [h]

/-- C10: the `error` event arm touches only the target session's `error`
field and `isAnalyzing` flag (the record-update form makes every other
field of the session, in particular `analysisResults` and `resourceResults`,
syntactically unchanged), and every other session is untouched. -/
theorem c10_error_event_frame (store : SessionStore) (sid : String)
    (s : AnalysisSession) (e : Option String) (hs : store sid = some s) :
    (handleStreamingUpdate sid (.error e) store) sid =
        some { s with error := e, isAnalyzing := false } ∧
    ∀ k, k ≠ sid → (handleStreamingUpdate sid (.error e) store) k = store k := by
  rw [handleStreamingUpdate_of_some sid (.error e) store s hs]
  constructor
  · simp [applyEvent]
  · intro k hk
    simp [hk]

/-- Concrete request data used by the witnesses. -/
def adA : AnalysisData :=
  { sessionId := "b", selectedResources := ["r"], fileName := "f",
    fileKey := "k", source := "s3", bucketName := "bu" }

/-- A concrete stored detection result with two drift entries. -/
def drA : DriftResult :=
  { drift_count := some 2, drifts := some [⟨0⟩, ⟨1⟩], has_drift := some true }

/-- A fully completed resource record. -/
def rrComplete : ResourceResult :=
  { status := some "completed", detectionStatus := some "complete",
    reportStatus := some "complete", detectionResults := some drA,
    reportResults := some ⟨0⟩ }

/-- A streaming session whose resource `"r"` has completed detection and
reporting. -/
def sessionA : AnalysisSession where
  id := "s"
  analysisData := adA
  analysisResults := { status := some "started", session_dir := none, resources := some ["r"] }
  resourceResults := fun k => if k = "r" then some rrComplete else none
  isAnalyzing := true
  analysisComplete := false
  hasStarted := true
  error := none
  timestamp := 0

/-- A store holding exactly `sessionA` under id `"s"`. -/
def storeA : SessionStore := fun k => if k = "s" then some sessionA else none

/-- A streaming session with no resource records yet. -/
def sessionB : AnalysisSession where
  id := "s"
  analysisData := adA
  analysisResults := { status := none, session_dir := none, resources := none }
  resourceResults := fun _ => none
  isAnalyzing := true
  analysisComplete := false
  hasStarted := true
  error := none
  timestamp := 0

/-- A store holding exactly `sessionB` under id `"s"`. -/
def storeB : SessionStore := fun k => if k = "s" then some sessionB else none

/-- A `resource_group_update` whose batch carries resource `"r"` in a
non-completed state: no `drift_result`, no `report`, status
`"processing"`. -/
def groupPendingEvent : StreamEvent :=
  .resource_group_update (some [("r", { status := some "processing", drift_result := none, report := none })])

/-- C8 witness: in a concrete store whose session has no record for `"r"`,
a `detection_complete` for `"r"` creates the completed record. -/
theorem c8_witness :
    storeB "s" = some sessionB ∧ sessionB.resourceResults "r" = none ∧
    ((handleStreamingUpdate "s" (.detection_complete "r" (some drA)) storeB) "s").bind
        (fun s2 => s2.resourceResults "r") =
      some { status := none, detectionStatus := some "complete", reportStatus := none,
             detectionResults := some drA, reportResults := none } :=
  ⟨rfl, rfl, c8_detection_complete_creates storeB "s" "r" sessionB (some drA) rfl rfl⟩

/-- C9 witness: feeding an event for the unknown id `"nope"` leaves the
concrete store unchanged. -/
theorem c9_witness :
    storeA "nope" = none ∧
    handleStreamingUpdate "nope" .analysis_complete storeA = storeA :=
  ⟨rfl, c9_unknown_session_noop storeA "nope" .analysis_complete rfl⟩

/-- C10 witness: a concrete `error` event only rewrites `error` and
`isAnalyzing` of session `"s"` and leaves other ids untouched. -/
theorem c10_witness :
    storeA "s" = some sessionA ∧
    (handleStreamingUpdate "s" (.error (some "boom")) storeA) "s" =
        some { sessionA with error := some "boom", isAnalyzing := false } ∧
    ("other" : String) ≠ "s" ∧
    (handleStreamingUpdate "s" (.error (some "boom")) storeA) "other" = storeA "other" :=
  ⟨rfl,
   (c10_error_event_frame storeA "s" sessionA (some "boom") rfl).1,
   by decide,
   (c10_error_event_frame storeA "s" sessionA (some "boom") rfl).2 "other" (by decide)⟩

/-- C1 counterexample: in a concrete store whose resource `"r"` has
`detectionStatus` complete with a stored result, a later
`resource_group_update` carrying `"r"` in a non-completed state reverts the
status to pending and clears the stored `detectionResults` - the claimed
monotonicity fails on the code. -/
theorem c1_counterexample :
    getDetStatus storeA "s" "r" = some "complete" ∧
    getDetResults storeA "s" "r" = some drA ∧
    getDetStatus (handleStreamingUpdate "s" groupPendingEvent storeA) "s" "r" = some "pending" ∧
    getDetResults (handleStreamingUpdate "s" groupPendingEvent storeA) "s" "r" = none := by
  refine ⟨rfl, rfl, ?_, ?_⟩ <;> rfl

/-- C1 (amended): statuses are monotonic only under the event arms that
merge into an existing record - for every event other than
`resource_initialized` and `resource_group_update` (both of which overwrite
the resource entry wholesale from the incoming payload alone), a resource
whose `detectionStatus` (resp. `reportStatus`) is complete keeps it
complete. -/
theorem c1_amended_monotonic (ev : StreamEvent) (sid r : String) (store : SessionStore)
    (hev : preservesCompletion ev = true) :
    (getDetStatus store sid r = some "complete" →
      getDetStatus (handleStreamingUpdate sid ev store) sid r = some "complete") ∧
    (getRepStatus store sid r = some "complete" →
      getRepStatus (handleStreamingUpdate sid ev store) sid r = some "complete") := by
  cases hs : store sid with
  | none =>
    have h1 : handleStreamingUpdate sid ev store = store := by
      unfold handleStreamingUpdate
      rw [hs]
    rw [h1]
    exact ⟨fun h => h, fun h => h⟩
  | some s =>
    have hub : (handleStreamingUpdate sid ev store) sid = some (applyEvent s ev) := by
      rw [handleStreamingUpdate_of_some sid ev store s hs]
      simp
    simp only [getDetStatus, getRepStatus, hs, hub]
    cases ev with
    | resource_initialized a b c => simp [preservesCompletion] at hev
    | resource_group_update batch => simp [preservesCompletion] at hev
    | session_initialized d => exact ⟨fun h => h, fun h => h⟩
    | analysis_started rs => exact ⟨fun h => h, fun h => h⟩
    | analysis_complete => exact ⟨fun h => h, fun h => h⟩
    | error e => exact ⟨fun h => h, fun h => h⟩
    | unknown => exact ⟨fun h => h, fun h => h⟩
    | detection_complete r2 res =>
      by_cases hr : r = r2
      · subst hr
        cases hsr : s.resourceResults r with
        | none => simp [applyEvent, hsr]
        | some prev => simp [applyEvent, hsr]
      · simp [applyEvent, hr]
    | report_complete r2 res =>
      by_cases hr : r = r2
      · subst hr
        cases hsr : s.resourceResults r with
        | none => simp [applyEvent, hsr]
        | some prev => simp [applyEvent, hsr]
      · simp [applyEvent, hr]

/-- C1 amended witness: a concrete completed resource stays complete across
an `analysis_complete` event. -/
theorem c1_amended_witness :
    preservesCompletion .analysis_complete = true ∧
    getDetStatus storeA "s" "r" = some "complete" ∧
    getDetStatus (handleStreamingUpdate "s" .analysis_complete storeA) "s" "r" = some "complete" :=
  ⟨rfl, rfl, (c1_amended_monotonic .analysis_complete "s" "r" storeA rfl).1 rfl⟩

/-- C2 counterexample: after `stopAnalysis` the session stays in the store
and the reducer has no cancellation guard, so a late `detection_complete`
fed to the update handler still mutates the session's `resourceResults` -
the stored state is not identical before and after the late event. -/
theorem c2_counterexample :
    handleStreamingUpdate "s" (.detection_complete "r" (some drA))
        (stopAnalysisSessions "s" storeB) ≠
      stopAnalysisSessions "s" storeB := by
  intro h
  have h2 := congrArg
    (fun st : SessionStore => ((st "s").map (fun s2 => (s2.resourceResults "r").isSome))) h
  exact absurd h2 (by decide)

/-- The reducer commutes with clearing the analyzing flag: no event arm
reads `isAnalyzing`, and the arms that write it write `false`. -/
theorem applyEvent_stop_comm (s : AnalysisSession) (ev : StreamEvent) :
    applyEvent { s with isAnalyzing := false } ev =
      { applyEvent s ev with isAnalyzing := false } := by
  cases ev with
  | resource_group_update batch => cases batch <;> rfl
  | _ => rfl

/-- C2 (amended): `stopAnalysis` only clears the session's `isAnalyzing`
flag and releases the stream handle; the update handler applies a late
event to the stopped session exactly as it would to the live session (the
two operations commute on the store).  No-further-mutation holds in the
source only because cancelling the reader ends the driver's read loop, not
because the reducer checks cancellation. -/
theorem c2_amended_stop_no_guard (sid : String) (ev : StreamEvent)
    (store : SessionStore) (s : AnalysisSession) (hs : store sid = some s) :
    handleStreamingUpdate sid ev (stopAnalysisSessions sid store) =
      stopAnalysisSessions sid (handleStreamingUpdate sid ev store) := by
  have hstop := stopAnalysisSessions_of_some sid store s hs
  have h1 : (stopAnalysisSessions sid store) sid = some { s with isAnalyzing := false } := by
    rw [hstop]
    simp
  have h2 : (handleStreamingUpdate sid ev store) sid = some (applyEvent s ev) := by
    rw [handleStreamingUpdate_of_some sid ev store s hs]
    simp
  rw [handleStreamingUpdate_of_some sid ev _ _ h1,
      handleStreamingUpdate_of_some sid ev store s hs,
      applyEvent_stop_comm]
  funext k
  by_cases hk : k = sid
  · subst hk
    simp [stopAnalysisSessions]
  · simp only [if_neg hk]
    rw [hstop]
    simp only [if_neg hk]
    simp [stopAnalysisSessions, hk]

/-- C2 amended witness: on a concrete stopped session, a late
`detection_complete` lands exactly as it would have before the stop. -/
theorem c2_amended_witness :
    storeB "s" = some sessionB ∧
    handleStreamingUpdate "s" (.detection_complete "r" (some drA))
        (stopAnalysisSessions "s" storeB) =
      stopAnalysisSessions "s"
        (handleStreamingUpdate "s" (.detection_complete "r" (some drA)) storeB) :=
  ⟨rfl, c2_amended_stop_no_guard "s" (.detection_complete "r" (some drA)) storeB sessionB rfl⟩

/-- A resource record carrying both an explicit `drift_count` (5) and a
`drifts` list of length 2 in its detection result. -/
def rrBoth : ResourceResult :=
  { status := none, detectionStatus := some "complete", reportStatus := none,
    detectionResults := some { drift_count := some 5, drifts := some [⟨0⟩, ⟨1⟩], has_drift := none },
    reportResults := none }

/-- C4 counterexample: when both fields are present the code returns the
explicit `drift_count` (checked first), not the length of the `drifts`
list as the claim states - `getDriftCount` and the spec-worded projection
disagree on a concrete record. -/
theorem c4_counterexample :
    getDriftCount (some rrBoth) = 5 ∧
    specDriftCount (some rrBoth) = 2 ∧
    getDriftCount (some rrBoth) ≠ specDriftCount (some rrBoth) := by
  refine ⟨rfl, rfl, ?_⟩
  decide

/-- C4 (amended): the projected drift count prefers the explicit
`drift_count` field and falls back to the length of the `drifts` list only
when `drift_count` is absent; consequently the final derived count equals
the number of stored drift entries exactly when the stored detection result
carries no `drift_count`. -/
theorem c4_amended_drift_count (store : SessionStore) (sid r : String) (s : AnalysisSession)
    (hs : store sid = some s) (l : List DriftEntry) (n : Nat) (hd : Option Bool) :
    getDriftCount (((handleStreamingUpdate sid
        (.detection_complete r (some { drift_count := none, drifts := some l, has_drift := hd }))
        store) sid).bind (fun s2 => s2.resourceResults r)) = l.length ∧
    getDriftCount (((handleStreamingUpdate sid
        (.detection_complete r (some { drift_count := some n, drifts := some l, has_drift := hd }))
        store) sid).bind (fun s2 => s2.resourceResults r)) = n := by
  constructor <;>
    · rw [handleStreamingUpdate_of_some sid _ store s hs]
      cases hsr : s.resourceResults r <;> simp [applyEvent, getDriftCount, hsr]

/-- C4 amended witness: storing a detection result with one drift entry and
no `drift_count` makes the projected count 1. -/
theorem c4_amended_witness :
    storeB "s" = some sessionB ∧
    getDriftCount (((handleStreamingUpdate "s"
        (.detection_complete "r" (some { drift_count := none, drifts := some [⟨3⟩], has_drift := none }))
        storeB) "s").bind (fun s2 => s2.resourceResults "r")) = 1 :=
  ⟨rfl, (c4_amended_drift_count storeB "s" "r" sessionB rfl [⟨3⟩] 0 none).1⟩

/-- C6: the initiating POST's response classification - 423, 401 and 403
map to their fixed messages and never open the stream, any other non-2xx
response fails with the backend `details` field when present and non-empty,
else the `error` field, and every non-2xx response yields `failed` (the
stream is opened only on `proceed`). -/
theorem c6_http_error_mapping (statusText : String) (body : Option ErrorBody) :
    classifyResponse 423 statusText body =
        .failed "Analysis already in progress for this file. Please wait for it to complete." ∧
    classifyResponse 401 statusText body =
        .failed "Authentication failed. Your session may have expired. Please reconnect to your cloud environment." ∧
    classifyResponse 403 statusText body =
        .failed "Access forbidden. Please check your permissions and try again." ∧
    (∀ status : Nat, respOk status = false → status ≠ 423 → status ≠ 401 → status ≠ 403 →
      ∀ d : String, d ≠ "" → ∀ e,
        classifyResponse status statusText (some { details := some d, err := e }) = .failed d) ∧
    (∀ status : Nat, respOk status = false → status ≠ 423 → status ≠ 401 → status ≠ 403 →
      ∀ e : String, e ≠ "" →
        classifyResponse status statusText (some { details := none, err := some e }) = .failed e) ∧
    (∀ status : Nat, respOk status = false →
      ∃ msg, classifyResponse status statusText body = .failed msg) := by
  refine ⟨?_, ?_, ?_, ?_, ?_, ?_⟩
  · have h : respOk 423 = false := by decide
    simp [classifyResponse, h]
  · have h : respOk 401 = false := by decide
    simp [classifyResponse, h]
  · have h : respOk 403 = false := by decide
    simp [classifyResponse, h]
  · intro status hok h1 h2 h3 d hd e
    simp [classifyResponse, hok, h1, h2, h3, jsOr, hd]
  · intro status hok h1 h2 h3 e he
    simp [classifyResponse, hok, h1, h2, h3, jsOr, he]
  · intro status hok
    simp only [classifyResponse, hok, Bool.false_eq_true, if_false]
    split
    · exact ⟨_, rfl⟩
    · split
      · exact ⟨_, rfl⟩
      · split
        · exact ⟨_, rfl⟩
        · exact ⟨_, rfl⟩

/-- C6 witness: concrete instances of the 423 mapping and of the generic
`details`-carrying failure for status 500. -/
theorem c6_witness :
    classifyResponse 423 "Locked" none =
        .failed "Analysis already in progress for this file. Please wait for it to complete." ∧
    classifyResponse 500 "Internal Server Error" (some { details := some "boom", err := none }) =
        .failed "boom" :=
  ⟨(c6_http_error_mapping "Locked" none).1,
   (c6_http_error_mapping "Internal Server Error" none).2.2.2.1 500 (by decide) (by decide)
     (by decide) (by decide) "boom" (by decide) none⟩

/-- Request data whose derived id at time 7 is `"f_b_7"`. -/
def adC : AnalysisData :=
  { sessionId := "b", selectedResources := ["r"], fileName := "f",
    fileKey := "k", source := "s3", bucketName := "bu" }

/-- A session already streaming under the derived id `"f_b_7"`, with a
completed resource `"r"`. -/
def sessionC : AnalysisSession where
  id := "f_b_7"
  analysisData := adC
  analysisResults := { status := some "started", session_dir := none, resources := some ["r"] }
  resourceResults := fun k => if k = "r" then some rrComplete else none
  isAnalyzing := true
  analysisComplete := false
  hasStarted := true
  error := none
  timestamp := 7

/-- A store holding exactly `sessionC` under `"f_b_7"`. -/
def storeC : SessionStore := fun k => if k = "f_b_7" then some sessionC else none

/-- C7 counterexample: with an equivalent session (same derived id)
currently streaming, `startAnalysis` does not refuse - it allocates a fresh
session that overwrites the streaming one (its accumulated resource record
is gone and the fresh session is analyzing). -/
theorem c7_counterexample :
    generateSessionId adC 7 = "f_b_7" ∧
    (storeC "f_b_7").map (fun s2 => s2.isAnalyzing) = some true ∧
    (storeC "f_b_7").map (fun s2 => (s2.resourceResults "r").isSome) = some true ∧
    ((startAnalysisSessions adC 7 9 storeC) "f_b_7").map
        (fun s2 => (s2.resourceResults "r").isSome) = some false ∧
    ((startAnalysisSessions adC 7 9 storeC) "f_b_7").map
        (fun s2 => s2.isAnalyzing) = some true := by
  refine ⟨rfl, rfl, ?_, ?_, ?_⟩ <;> rfl

/-- C7 (amended): `startAnalysis` performs no duplicate-session check: even
when the store already holds a session with the same derived id that is
currently analyzing, it unconditionally writes a fresh session under that
id (overwriting the old one) and leaves every other id untouched. -/
theorem c7_amended_always_allocates (ad : AnalysisData) (nowId nowTs : Nat)
    (store : SessionStore) (s : AnalysisSession)
    (_hs : store (generateSessionId ad nowId) = some s) (_hstr : s.isAnalyzing = true) :
    (startAnalysisSessions ad nowId nowTs store) (generateSessionId ad nowId) =
        some (newSession ad (generateSessionId ad nowId) nowTs) ∧
    ∀ k, k ≠ generateSessionId ad nowId →
      (startAnalysisSessions ad nowId nowTs store) k = store k := by
  constructor
  · simp [startAnalysisSessions]
  · intro k hk
    simp [startAnalysisSessions, hk]

/-- C7 amended witness: the concrete streaming session `sessionC` is
overwritten by a fresh allocation at the same derived id. -/
theorem c7_amended_witness :
    storeC (generateSessionId adC 7) = some sessionC ∧
    sessionC.isAnalyzing = true ∧
    (startAnalysisSessions adC 7 9 storeC) (generateSessionId adC 7) =
        some (newSession adC (generateSessionId adC 7) 9) :=
  ⟨rfl, rfl, (c7_amended_always_allocates adC 7 9 storeC sessionC rfl rfl).1⟩

/-- The empty line carries no record: `"data: "` is not a prefix of it. -/
theorem lineRecord_nil {α : Type} (parse : List Char → Option α) :
    lineRecord parse [] = none := by
  have h : dataTag.isPrefixOf ([] : List Char) = false := by decide
  simp [lineRecord, h]

/-- `splitNL` yields the complete lines followed by the trailing partial
line. -/
theorem splitNL_eq_linesAcc (t : List Char) :
    splitNL t = (linesAcc t).1 ++ [(linesAcc t).2] := by
  induction t with
  | nil => rfl
  | cons c cs ih =>
    by_cases hc : c = '\n'
    · subst hc
      simp [splitNL, linesAcc, ih]
    · cases hl : linesAcc cs with
      | mk l1 l2 =>
        rw [hl] at ih
        cases l1 with
        | nil =>
          simp at ih
          simp [splitNL, linesAcc, hc, hl, ih]
        | cons x xs =>
          simp [splitNL, linesAcc, hc, hl, ih]

/-- Splitting a concatenation distributes when the first part consists of
complete lines only. -/
theorem linesAcc_append_complete (a b : List Char) (h : (linesAcc a).2 = []) :
    linesAcc (a ++ b) = ((linesAcc a).1 ++ (linesAcc b).1, (linesAcc b).2) := by
  induction a with
  | nil => simp [linesAcc]
  | cons c cs ih =>
    by_cases hc : c = '\n'
    · subst hc
      have h2 : (linesAcc cs).2 = [] := by simpa [linesAcc] using h
      simp [linesAcc, ih h2]
    · cases hl : linesAcc cs with
      | mk l1 l2 =>
        cases l1 with
        | nil =>
          simp [linesAcc, hc, hl] at h
        | cons x xs =>
          have h2 : l2 = [] := by simpa [linesAcc, hc, hl] using h
          rw [hl] at ih
          have ih2 := ih h2
          subst h2
          simp [linesAcc, hc, hl, ih2]

/-- Chunk decoding distributes over concatenation when the first chunk ends
at a line break (no partial trailing line). -/
theorem processChunk_append_complete {α : Type} (parse : List Char → Option α)
    (a b : List Char) (h : (linesAcc a).2 = []) :
    processChunk parse (a ++ b) = processChunk parse a ++ processChunk parse b := by
  unfold processChunk
  rw [splitNL_eq_linesAcc (a ++ b), splitNL_eq_linesAcc a, splitNL_eq_linesAcc b,
      linesAcc_append_complete a b h, h]
  simp [List.filterMap_append, lineRecord_nil]

/-- A parser standing in for `JSON.parse` on the inputs this development
feeds it: it accepts exactly the complete JSON literal `true`; in
particular, like `JSON.parse`, it rejects the truncated fragment `tr`. -/
def boolParse : List Char → Option Nat :=
  fun s => if s = "true".toList then some 0 else none

/-- C3 counterexample: splitting the stream `"data: true\n"` into the two
chunks `"data: tr"` / `"ue\n"` makes the decoder lose the record that
whole-stream decoding yields: per-chunk splitting treats `"data: tr"` as a
complete line (whose remainder fails to parse) and the continuation line
has no `"data: "` prefix - so the decode is not chunking-independent and
partial lines are not buffered. -/
theorem c3_counterexample :
    decodeChunks boolParse ["data: tr".toList, "ue\n".toList] = [] ∧
    decodeWhole boolParse (["data: tr".toList, "ue\n".toList]).flatten = [0] ∧
    decodeChunks boolParse ["data: tr".toList, "ue\n".toList] ≠
      decodeWhole boolParse (["data: tr".toList, "ue\n".toList]).flatten := by
  refine ⟨rfl, rfl, ?_⟩
  decide

/-- C3 (amended): the decoder splits every chunk independently and carries
nothing across chunk boundaries, so chunked decoding agrees with
whole-stream decoding exactly when every chunk consists of complete
line-break-terminated lines; a chunk boundary inside a line breaks the
correspondence (see the counterexample). -/
theorem c3_chunk_aligned_decode {α : Type} (parse : List Char → Option α)
    (chunks : List (List Char)) (h : ∀ c ∈ chunks, (linesAcc c).2 = []) :
    decodeChunks parse chunks = decodeWhole parse chunks.flatten := by
  induction chunks with
  | nil =>
    simp [decodeChunks, decodeWhole, processChunk, splitNL, lineRecord_nil]
  | cons c cs ih =>
    have hc := h c (by simp)
    have hcs : ∀ x ∈ cs, (linesAcc x).2 = [] := fun x hx => h x (by simp [hx])
    have hstep := processChunk_append_complete parse c cs.flatten hc
    simp only [decodeChunks, List.map_cons, List.flatten_cons, decodeWhole]
    rw [hstep]
    have ih2 := ih hcs
    simp only [decodeChunks, decodeWhole] at ih2
    rw [ih2]

/-- C3 amended witness: two whole-line chunks decode exactly as the
concatenated stream. -/
theorem c3_amended_witness :
    (∀ c ∈ ["data: true\n".toList, "data: true\n".toList], (linesAcc c).2 = []) ∧
    decodeChunks boolParse ["data: true\n".toList, "data: true\n".toList] =
      decodeWhole boolParse (["data: true\n".toList, "data: true\n".toList]).flatten :=
  ⟨by decide, c3_chunk_aligned_decode boolParse _ (by decide)⟩

end DriftAssist
